import Mathlib

/-!
Verification development for the Vocalize voice-agent orchestrator
(src/agent/agent.py).  The Python code is shallowly embedded: strings are
modelled as `List Char`, Python dictionaries produced by `json.loads` as a
`JsonVal` inductive, and Python exceptions as an `Except PyExc` result.
Each definition mirrors one function of the source file and keeps its name
where Lean allows it.
-/

/-- Whitespace predicate used by Python `str.strip()` (ASCII part:
space, tab, newline, carriage return, vertical tab, form feed). -/
def pyIsSpace (c : Char) : Bool :=
  c = ' ' || c = '\t' || c = '\n' || c = '\r' || c = '\x0b' || c = '\x0c'

/-- Model of Python `str.strip()`: drop leading and trailing whitespace. -/
def pyStrip (s : List Char) : List Char :=
  ((s.dropWhile pyIsSpace).reverse.dropWhile pyIsSpace).reverse

/-- JSON values as returned by Python `json.loads`.  Numbers keep their
source lexeme (including the non-standard constants `NaN`, `Infinity` and
`-Infinity` that `json.loads` accepts by default as floats), which is
enough here because no claim inspects a numeric value. -/
inductive JsonVal where
  | null : JsonVal
  | bool (b : Bool) : JsonVal
  | num (lexeme : List Char) : JsonVal
  | str (s : List Char) : JsonVal
  | arr (elems : List JsonVal) : JsonVal
  | obj (members : List (List Char × JsonVal)) : JsonVal

/-- Python exceptions that the modelled code can raise. -/
inductive PyExc where
  | jsonDecodeError : PyExc
  | attributeError : PyExc
  | otherError : PyExc
deriving DecidableEq

/-- Skip the JSON whitespace characters accepted by `json.loads`. -/
def skipWs : List Char → List Char
  | c :: rest =>
    if c = ' ' ∨ c = '\t' ∨ c = '\n' ∨ c = '\r' then skipWs rest else c :: rest
  | [] => []

/-- Value of one hexadecimal digit, if the character is one. -/
def hexVal (c : Char) : Option Nat :=
  if '0' ≤ c ∧ c ≤ '9' then some (c.toNat - '0'.toNat)
  else if 'a' ≤ c ∧ c ≤ 'f' then some (c.toNat - 'a'.toNat + 10)
  else if 'A' ≤ c ∧ c ≤ 'F' then some (c.toNat - 'A'.toNat + 10)
  else none

/-- Parse the body of a JSON string literal (the opening quote already
consumed); returns the decoded characters and the input after the closing
quote.  Fuelled to keep the recursion structural. -/
def parseStringBody : Nat → List Char → Option (List Char × List Char)
  | 0, _ => none
  | _ + 1, [] => none
  | fuel + 1, c :: rest =>
    if c = '\"' then some ([], rest)
    else if c = '\\' then
      match rest with
      | [] => none
      | e :: r1 =>
        if e = '\"' then (parseStringBody fuel r1).map (fun p => ('\"' :: p.1, p.2))
        else if e = '\\' then (parseStringBody fuel r1).map (fun p => ('\\' :: p.1, p.2))
        else if e = '/' then (parseStringBody fuel r1).map (fun p => ('/' :: p.1, p.2))
        else if e = 'b' then (parseStringBody fuel r1).map (fun p => ('\x08' :: p.1, p.2))
        else if e = 'f' then (parseStringBody fuel r1).map (fun p => ('\x0c' :: p.1, p.2))
        else if e = 'n' then (parseStringBody fuel r1).map (fun p => ('\n' :: p.1, p.2))
        else if e = 'r' then (parseStringBody fuel r1).map (fun p => ('\r' :: p.1, p.2))
        else if e = 't' then (parseStringBody fuel r1).map (fun p => ('\t' :: p.1, p.2))
        else if e = 'u' then
          match r1 with
          | a :: b :: c2 :: d :: r2 =>
            match hexVal a, hexVal b, hexVal c2, hexVal d with
            | some ha, some hb, some hc, some hd =>
              (parseStringBody fuel r2).map
                (fun p => (Char.ofNat (((ha * 16 + hb) * 16 + hc) * 16 + hd) :: p.1, p.2))
            | _, _, _, _ => none
          | _ => none
        else none
    else if c.toNat < 32 then none
    else (parseStringBody fuel rest).map (fun p => (c :: p.1, p.2))

/-- Take a maximal run of decimal digits from the front of the input. -/
def takeDigits : List Char → List Char × List Char
  | [] => ([], [])
  | c :: rest =>
    if '0' ≤ c ∧ c ≤ '9' then
      let p := takeDigits rest
      (c :: p.1, p.2)
    else ([], c :: rest)

/-- Parse the optional fraction part of a JSON number. -/
def parseFracPart (s : List Char) : Option (List Char × List Char) :=
  match s with
  | '.' :: r =>
    match takeDigits r with
    | ([], _) => none
    | (fs, rr) => some ('.' :: fs, rr)
  | _ => some ([], s)

/-- Parse the optional exponent part of a JSON number. -/
def parseExpPart (s : List Char) : Option (List Char × List Char) :=
  match s with
  | c :: r =>
    if c = 'e' ∨ c = 'E' then
      let p := match r with
        | '+' :: rr => ((['+'] : List Char), rr)
        | '-' :: rr => ((['-'] : List Char), rr)
        | _ => (([] : List Char), r)
      match takeDigits p.2 with
      | ([], _) => none
      | (ds, rr) => some (c :: (p.1 ++ ds), rr)
    else some ([], c :: r)
  | [] => some ([], [])

/-- Parse a JSON number lexeme (sign, integer part with the leading-zero
rule, optional fraction and exponent). -/
def parseNumberLex (s : List Char) : Option (List Char × List Char) :=
  let sp : List Char × List Char := match s with
    | '-' :: r => (['-'], r)
    | _ => ([], s)
  match takeDigits sp.2 with
  | ([], _) => none
  | (ds, r1) =>
    if 1 < ds.length ∧ ds.headD 'x' = '0' then none
    else
      match parseFracPart r1 with
      | none => none
      | some (frac, r2) =>
        match parseExpPart r2 with
        | none => none
        | some (ex, r3) => some (sp.1 ++ ds ++ frac ++ ex, r3)

mutual

/-- Parse one JSON value; returns the value and the remaining input.
Besides the standard grammar, `json.loads` by default accepts the
constants `NaN`, `Infinity` and `-Infinity` as float values, so they are
accepted here as numbers carrying their lexeme. -/
def parseValue : Nat → List Char → Option (JsonVal × List Char)
  | 0, _ => none
  | fuel + 1, s =>
    match skipWs s with
    | [] => none
    | 'n' :: r =>
      match r with
      | 'u' :: 'l' :: 'l' :: r2 => some (JsonVal.null, r2)
      | _ => none
    | 't' :: r =>
      match r with
      | 'r' :: 'u' :: 'e' :: r2 => some (JsonVal.bool true, r2)
      | _ => none
    | 'f' :: r =>
      match r with
      | 'a' :: 'l' :: 's' :: 'e' :: r2 => some (JsonVal.bool false, r2)
      | _ => none
    | 'N' :: r =>
      match r with
      | 'a' :: 'N' :: r2 => some (JsonVal.num ("NaN".toList), r2)
      | _ => none
    | 'I' :: r =>
      match r with
      | 'n' :: 'f' :: 'i' :: 'n' :: 'i' :: 't' :: 'y' :: r2 =>
        some (JsonVal.num ("Infinity".toList), r2)
      | _ => none
    | '-' :: r =>
      (match r with
       | 'I' :: 'n' :: 'f' :: 'i' :: 'n' :: 'i' :: 't' :: 'y' :: r2 =>
         some (JsonVal.num ("-Infinity".toList), r2)
       | _ => (parseNumberLex ('-' :: r)).map (fun p => (JsonVal.num p.1, p.2)))
    | '\"' :: r =>
      (parseStringBody (r.length + 1) r).map (fun p => (JsonVal.str p.1, p.2))
    | '[' :: r =>
      (match skipWs r with
       | ']' :: r2 => some (JsonVal.arr [], r2)
       | _ => (parseElems fuel r).map (fun p => (JsonVal.arr p.1, p.2)))
    | '{' :: r =>
      (match skipWs r with
       | '}' :: r2 => some (JsonVal.obj [], r2)
       | _ => (parseMembers fuel r).map (fun p => (JsonVal.obj p.1, p.2)))
    | c :: r =>
      if '0' ≤ c ∧ c ≤ '9' then
        (parseNumberLex (c :: r)).map (fun p => (JsonVal.num p.1, p.2))
      else none

/-- Parse the comma-separated elements of a JSON array up to the closing
bracket. -/
def parseElems : Nat → List Char → Option (List JsonVal × List Char)
  | 0, _ => none
  | fuel + 1, s =>
    match parseValue fuel s with
    | none => none
    | some (v, r) =>
      match skipWs r with
      | ',' :: r2 =>
        (match parseElems fuel r2 with
         | none => none
         | some (vs, r3) => some (v :: vs, r3))
      | ']' :: r2 => some ([v], r2)
      | _ => none

/-- Parse the comma-separated members of a JSON object up to the closing
brace. -/
def parseMembers : Nat → List Char → Option (List (List Char × JsonVal) × List Char)
  | 0, _ => none
  | fuel + 1, s =>
    match skipWs s with
    | '\"' :: r =>
      (match parseStringBody (r.length + 1) r with
       | none => none
       | some (key, r1) =>
         match skipWs r1 with
         | ':' :: r2 =>
           (match parseValue fuel r2 with
            | none => none
            | some (v, r3) =>
              match skipWs r3 with
              | ',' :: r4 =>
                (match parseMembers fuel r4 with
                 | none => none
                 | some (ms, r5) => some ((key, v) :: ms, r5))
              | '}' :: r4 => some ([(key, v)], r4)
              | _ => none)
         | _ => none)
    | _ => none

end

/-- Model of `json.loads`: parse a complete JSON document, allowing
surrounding whitespace; `none` stands for a raised `JSONDecodeError`. -/
def json_loads (s : List Char) : Option JsonVal :=
  match parseValue (s.length + 2) s with
  | none => none
  | some (v, rest) => if skipWs rest = [] then some v else none

/-- Last-occurrence lookup in a decoded JSON object: Python builds a dict in
which a later duplicate key overrides an earlier one. -/
def objLookup (kvs : List (List Char × JsonVal)) (key : List Char) : Option JsonVal :=
  match kvs with
  | [] => none
  | (k, v) :: rest =>
    match objLookup rest key with
    | some v2 => some v2
    | none => if k = key then some v else none

/-- Python `m.get(key, dflt)`: raises `AttributeError` when the receiver is
not a dict, otherwise returns the stored value or the default. -/
def dict_get (m : JsonVal) (key : List Char) (dflt : JsonVal) : Except PyExc JsonVal :=
  match m with
  | JsonVal.obj kvs => Except.ok ((objLookup kvs key).getD dflt)
  | _ => Except.error PyExc.attributeError

/-- Python `m.get(key)` with its implicit `None` default: raises
`AttributeError` when the receiver is not a dict. -/
def dict_get_opt (m : JsonVal) (key : List Char) : Except PyExc (Option JsonVal) :=
  match m with
  | JsonVal.obj kvs => Except.ok (objLookup kvs key)
  | _ => Except.error PyExc.attributeError

/-- Python `v.strip()` on a decoded JSON value: only a `str` receiver has a
`strip` method, anything else raises `AttributeError`. -/
def pyStrStrip (v : JsonVal) : Except PyExc (List Char) :=
  match v with
  | JsonVal.str s => Except.ok (pyStrip s)
  | _ => Except.error PyExc.attributeError

/-- Composition `metadata.get(key, "").strip()` as used twice at the top of
`build_system_prompt`. -/
def getStrippedStr (m : JsonVal) (key : List Char) : Except PyExc (List Char) :=
  match dict_get m key (JsonVal.str []) with
  | Except.error e => Except.error e
  | Except.ok v => pyStrStrip v

/-- Call type produced by the classification at the top of `entrypoint`. -/
inductive CallType where
  | WebRTC : CallType
  | Phone : CallType
deriving DecidableEq

/-- Python substring test `needle in haystack` on strings. -/
def containsSub (needle : List Char) : List Char → Bool
  | [] => needle.isPrefixOf []
  | c :: rest => needle.isPrefixOf (c :: rest) || containsSub needle rest

/-- Telephony detection from `entrypoint` (lines 980 to 986 of the source):
the five boolean checks combined with `or`. -/
def is_phone_call (identity roomName : List Char) : Bool :=
  ("sip_".toList.isPrefixOf identity) ||
  ("sip:".toList.isPrefixOf identity) ||
  ("+".toList.isPrefixOf identity) ||
  ("sip-".toList.isPrefixOf roomName) ||
  (containsSub "_+".toList roomName)

/-- Call classification as the spec describes it: the boolean
`is_phone_call` selects `Phone`, everything else is `WebRTC`. -/
def classify (identity roomName : List Char) : CallType :=
  if is_phone_call identity roomName then CallType.Phone else CallType.WebRTC

/-- Text of `DEFAULT_SYSTEM_PROMPT` (source lines 242 to 273); apostrophes
are written as hex escapes. -/
def DEFAULT_SYSTEM_PROMPT : List Char := String.toList (
  "You are Vocalize, a helpful, professional AI voice assistant. \n" ++
  "You are concise, friendly, and speak naturally like a human.\n" ++
  "Keep your responses brief and conversational - this is a voice call, not a text chat.\n" ++
  "NEVER use any markdown formatting like **bold**, *italic*, __, ##, bullets, or any special symbols - everything you say will be spoken aloud and displayed as-is.\n" ++
  "Be warm, personable, and helpful.\n" ++
  "\n" ++
  "WEB SEARCH CAPABILITY:\n" ++
  "- You have access to a search_web tool for real-time information.\n" ++
  "- Use it when users ask about: current events, news, weather, stock prices, sports scores, or anything that requires up-to-date information.\n" ++
  "- When you need to search, briefly tell the user \"Let me look that up for you\" then use the tool.\n" ++
  "- Summarize search results in a conversational, voice-friendly way - be concise!\n" ++
  "\n" ++
  "WEB PAGE READING CAPABILITY:\n" ++
  "- You have access to a read_webpage tool that can extract content from specific URLs.\n" ++
  "- Use it when users provide a URL and want you to read or summarize the page content.\n" ++
  "- Say \"Let me read that page for you\" before using the tool.\n" ++
  "- Summarize the key points in a conversational way.\n" ++
  "\n" ++
  "EMAIL CAPABILITY - MANDATORY TOOL USE:\n" ++
  "- When user says \"send me\", \"email me\", \"message me\", or wants info sent to their email:\n" ++
  "  IMMEDIATELY call request_email_input() tool. Do NOT respond with words first.\n" ++
  "- NEVER say \"Could you share your email?\" or \"What\x27s your email address?\" - THIS IS FORBIDDEN.\n" ++
  "- NEVER ask for the email verbally. ALWAYS use the request_email_input() tool instead.\n" ++
  "- After tool call succeeds, say ONE sentence: \"I\x27ve opened an input for your email.\" Then STOP.\n" ++
  "- DO NOT keep talking. Wait silently until you receive the email address.\n" ++
  "\n" ++
  "IMPORTANT RULES YOU MUST FOLLOW:\n" ++
  "- If asked about your knowledge cutoff date or training data date, say: \"Sorry, I can\x27t provide that information.\"\n" ++
  "- If asked who created you, who designed you, or which company made you, say: \"Sorry, I can\x27t provide that information.\"\n" ++
  "- Never mention that you are an LLM, a large language model, or that you were designed by Meta, OpenAI, or any other company.\n" ++
  "- Never mention Llama, GPT, or any other model names.\n" ++
  "- Simply present yourself as Vocalize, a voice assistant, without revealing technical details about your underlying technology.")

/-- Header prepended to the business details block in
`build_system_prompt`. -/
def CONTEXT_HEADER : List Char := String.toList "\n\nContext & Business Details:\n"

/-- Voice-delivery guidance block appended by `build_system_prompt`. -/
def VOICE_GUIDANCE : List Char := String.toList (
  "\n\nRemember: This is a voice conversation. Keep responses concise and natural.\n" ++
  "Avoid special characters, emojis, or formatting that doesn\x27t translate to speech.")

/-- Email-capability addendum that `build_system_prompt` always appends
last. -/
def EMAIL_TOOL_ADDENDUM : List Char := String.toList (
  "\n\nEMAIL CAPABILITY - MANDATORY:\n" ++
  "- When user says \"send me\", \"email me\", \"message me\" or wants info sent to email:\n" ++
  "  IMMEDIATELY call request_email_input() tool. Do NOT ask for email verbally.\n" ++
  "- NEVER say \"what\x27s your email?\" - use the tool to show a popup instead.\n" ++
  "- After tool call, say ONE sentence then STOP TALKING. Wait silently.")

/-- Key string for the persona metadata field. -/
def cPERSONA : List Char := "persona".toList

/-- Key string for the business details metadata field. -/
def cBUSINESS : List Char := "businessDetails".toList

/-- Model of `build_system_prompt(metadata)` (source lines 928 to 963).
Each arm mirrors one line of the Python function; errors stand for raised
exceptions (for example `.strip()` on a non-string field). -/
def build_system_prompt (metadata : JsonVal) : Except PyExc (List Char) :=
  match getStrippedStr metadata cPERSONA with
  | Except.error e => Except.error e
  | Except.ok persona =>
    match getStrippedStr metadata cBUSINESS with
    | Except.error e => Except.error e
    | Except.ok business_details =>
      if persona = [] ∧ business_details = [] then
        Except.ok DEFAULT_SYSTEM_PROMPT
      else
        Except.ok (List.flatten (
          (if persona ≠ [] then [persona] else [DEFAULT_SYSTEM_PROMPT]) ++
          (if business_details ≠ [] then [CONTEXT_HEADER ++ business_details] else []) ++
          [VOICE_GUIDANCE, EMAIL_TOOL_ADDENDUM]))

/-- Model of `parse_participant_metadata` (source lines 916 to 925): empty
input short-circuits to an empty dict, a decode failure is caught and
yields an empty dict, any successfully decoded value is returned as is. -/
def parse_participant_metadata (metadata : List Char) : JsonVal :=
  if metadata = [] then JsonVal.obj []
  else
    match json_loads metadata with
    | some j => j
    | none => JsonVal.obj []

/-- Key string of the control message discriminant. -/
def cTYPE : List Char := "type".toList

/-- Key string of the email payload field. -/
def cEMAIL : List Char := "email".toList

/-- Discriminant value of the inbound control message. -/
def cEMAIL_RESPONSE : List Char := "email_response".toList

/-- Python comparison `msg_type == "email_response"` where `msg_type` is
`message.get("type")`: true exactly when the value is that string, false
for `None` and for every value of another type. -/
def isEmailResponseType (msg_type : Option JsonVal) : Bool :=
  match msg_type with
  | some (JsonVal.str t) => t = cEMAIL_RESPONSE
  | _ => false

/-- Observable outcome of one run of the `on_data_received` callback:
either nothing happens beyond logging, or an asynchronous
`handle_email_response` task is spawned carrying the stripped email. -/
inductive HandlerResult where
  | noop : HandlerResult
  | spawn (email : List Char) : HandlerResult
deriving DecidableEq

/-- Body of the `try` block of `on_data_received` (source lines 1127 to
1170), starting from the decoded payload text: decode JSON, read the
`type` discriminant, and for `email_response` strip the email and spawn
the delivery task when it is non-empty.  An `Except.error` stands for an
exception raised inside the `try` block. -/
def on_data_received_body (raw : List Char) : Except PyExc HandlerResult :=
  match json_loads raw with
  | none => Except.error PyExc.jsonDecodeError
  | some message =>
    match dict_get_opt message cTYPE with
    | Except.error e => Except.error e
    | Except.ok msg_type =>
      if isEmailResponseType msg_type then
        match dict_get message cEMAIL (JsonVal.str []) with
        | Except.error e => Except.error e
        | Except.ok emailJ =>
          match pyStrStrip emailJ with
          | Except.error e => Except.error e
          | Except.ok email =>
            if email ≠ [] then Except.ok (HandlerResult.spawn email)
            else Except.ok HandlerResult.noop
      else Except.ok HandlerResult.noop

/-- Full `on_data_received` callback: the two `except` clauses catch the
`JSONDecodeError` and every other exception, log, and return normally, so
the callback is total. -/
def on_data_received (raw : List Char) : HandlerResult :=
  match on_data_received_body raw with
  | Except.ok r => r
  | Except.error PyExc.jsonDecodeError => HandlerResult.noop
  | Except.error _ => HandlerResult.noop

/-- Session state touched by the email handshake: the `received_email`
slot filled by `handle_email_response`. -/
structure DataSessionState where
  received_email : Option (List Char)
deriving DecidableEq

/-- Effect of the spawned `handle_email_response(email)` task (source
lines 1112 to 1120): store the email and prompt the agent to confirm it. -/
def handle_email_response (st : DataSessionState) (email : List Char) : DataSessionState :=
  { st with received_email := some email }

/-- One inbound payload processed to completion: run the callback, then
run the spawned task if one was created. -/
def process_data (st : DataSessionState) (raw : List Char) : DataSessionState :=
  match on_data_received raw with
  | HandlerResult.noop => st
  | HandlerResult.spawn e => handle_email_response st e

/-- Session lifecycle state: the `notion_saved` one-shot flag (the
termination latch) plus a count of how many times the persistence handoff
body has run. -/
structure LifecycleState where
  notion_saved : Bool
  handoffs : Nat
deriving DecidableEq

/-- Model of `save_conversation_to_notion` (source lines 1199 to 1216):
return immediately when the latch is closed, otherwise close it and run
the handoff body once (session-end banner plus the background save
thread), which the `handoffs` counter records. -/
def save_conversation_to_notion (st : LifecycleState) : LifecycleState :=
  if st.notion_saved then st
  else { notion_saved := true, handoffs := st.handoffs + 1 }

/-- Termination signals the manager registers: the session `close` event
and a `participant_disconnected` event carrying the identity of whichever
participant left. -/
inductive Signal where
  | sessionClose : Signal
  | participantDisconnected (identity : List Char) : Signal

/-- Dispatch of one signal (source lines 1219 to 1230): `close` always
calls `save_conversation_to_notion`; a disconnect calls it only when the
identity matches the session participant. -/
def on_signal (pid : List Char) (st : LifecycleState) : Signal → LifecycleState
  | Signal.sessionClose => save_conversation_to_notion st
  | Signal.participantDisconnected i =>
    if i = pid then save_conversation_to_notion st else st

/-- Deliver a sequence of termination signals in order.  The Python
handlers are synchronous callbacks of one event loop, so any concurrent
arrival is an interleaving covered by some ordering of this list. -/
def run_signals (pid : List Char) (st : LifecycleState) : List Signal → LifecycleState
  | [] => st
  | s :: rest => run_signals pid (on_signal pid st s) rest

/-- Boolean test for a signal that reaches `save_conversation_to_notion`. -/
def effectiveSignal (pid : List Char) : Signal → Bool
  | Signal.sessionClose => true
  | Signal.participantDisconnected i => i = pid

/-- Lifecycle state at session start: latch open, no handoff yet. -/
def initLifecycle : LifecycleState := { notion_saved := false, handoffs := 0 }

/-- Outcome of one call of `save_to_notion` (source lines 157 to 239). -/
inductive SaveOutcome where
  | skippedUnconfigured : SaveOutcome
  | saved : SaveOutcome
  | failedLogged : SaveOutcome
deriving DecidableEq

/-- Body of `save_to_notion` before its `except` clause: skip when the
Notion client is not configured, otherwise perform the sink write, whose
result is the `sinkResult` argument; a sink exception propagates out of
the `try` block. -/
def save_to_notion_body (configured : Bool) (sinkResult : Except PyExc Unit) :
    Except PyExc SaveOutcome :=
  if configured = false then Except.ok SaveOutcome.skippedUnconfigured
  else
    match sinkResult with
    | Except.ok _ => Except.ok SaveOutcome.saved
    | Except.error e => Except.error e

/-- Full `save_to_notion`: the `except Exception` clause catches any sink
failure, logs it, and returns normally. -/
def save_to_notion (configured : Bool) (sinkResult : Except PyExc Unit) :
    Except PyExc SaveOutcome :=
  match save_to_notion_body configured sinkResult with
  | Except.ok o => Except.ok o
  | Except.error _ => Except.ok SaveOutcome.failedLogged

/-- Persistence handoff with its sink outcome: `save_conversation_to_notion`
updates the latch first and, only when this call closed the latch, hands
the transcript to `save_to_notion` on a background thread. -/
def run_handoff (configured : Bool) (sinkResult : Except PyExc Unit)
    (st : LifecycleState) : LifecycleState × Option (Except PyExc SaveOutcome) :=
  if st.notion_saved then (st, none)
  else ({ notion_saved := true, handoffs := st.handoffs + 1 },
        some (save_to_notion configured sinkResult))

/-- Possible effects of the `end_call` tool (source lines 606 to 630). -/
inductive EndCallAction where
  | ignored : EndCallAction
  | hungUp : EndCallAction
deriving DecidableEq

/-- Default of the `confirm` argument of `end_call`. -/
def end_call_confirm_default : Bool := false

/-- Model of `VocalizeAgent.end_call`: with `confirm` false the function
logs and returns; with `confirm` true it waits for playout and deletes
the room through `hangup_call`. -/
def end_call (confirm : Bool) : EndCallAction :=
  if confirm = false then EndCallAction.ignored else EndCallAction.hungUp

/-- Room existence after running `end_call`: only a confirmed call deletes
the room. -/
def end_call_room_exists (confirm : Bool) (roomExists : Bool) : Bool :=
  if confirm = false then roomExists else false

/-- Boolean test whether a payload decodes to a dict whose `type` field is
the string `email_response`. -/
def emailResponseTagged (raw : List Char) : Bool :=
  match json_loads raw with
  | none => false
  | some m =>
    match dict_get_opt m cTYPE with
    | Except.error _ => false
    | Except.ok mt => isEmailResponseType mt

/-- The Python substring test agrees with the contiguous-sublist
relation. -/
theorem containsSub_iff (n h : List Char) : containsSub n h = true ↔ n <:+: h := by
  induction h with
  | nil => simp [containsSub]
  | cons c rest ih => simp [containsSub, ih, List.infix_cons_iff]

/-- Once the latch is closed, any further signal sequence leaves the
lifecycle state untouched. -/
theorem run_signals_saved (pid : List Char) (st : LifecycleState)
    (h : st.notion_saved = true) (sigs : List Signal) :
    run_signals pid st sigs = st := by
  induction sigs with
  | nil => rfl
  | cons s rest ih =>
    have hs : on_signal pid st s = st := by
      cases s with
      | sessionClose => simp [on_signal, save_conversation_to_notion, h]
      | participantDisconnected i =>
        simp [on_signal, save_conversation_to_notion, h]
    rw [run_signals, hs, ih]

/-- From the initial state, a signal sequence containing at least one
effective termination signal ends with the latch closed and the handoff
body run exactly once. -/
theorem run_signals_once (pid : List Char) (sigs : List Signal)
    (h : sigs.any (effectiveSignal pid) = true) :
    run_signals pid initLifecycle sigs = { notion_saved := true, handoffs := 1 } := by
  induction sigs with
  | nil => simp at h
  | cons s rest ih =>
    cases hs : effectiveSignal pid s with
    | true =>
      have h1 : on_signal pid initLifecycle s = { notion_saved := true, handoffs := 1 } := by
        cases s with
        | sessionClose => rfl
        | participantDisconnected i =>
          simp only [effectiveSignal, decide_eq_true_eq] at hs
          simp [on_signal, hs, save_conversation_to_notion, initLifecycle]
      rw [run_signals, h1, run_signals_saved _ _ rfl]
    | false =>
      have hrest : rest.any (effectiveSignal pid) = true := by
        simp only [List.any_cons, hs, Bool.false_or] at h
        exact h
      have h1 : on_signal pid initLifecycle s = initLifecycle := by
        cases s with
        | sessionClose => simp [effectiveSignal] at hs
        | participantDisconnected i =>
          simp only [effectiveSignal, decide_eq_false_iff_not] at hs
          simp [on_signal, hs]
      rw [run_signals, h1, ih hrest]

/-- An exception inside the `try` block of `on_data_received` is caught
and the callback returns having done nothing. -/
theorem on_data_received_of_error (raw : List Char) (e : PyExc)
    (he : on_data_received_body raw = Except.error e) :
    on_data_received raw = HandlerResult.noop := by
  unfold on_data_received
  rw [he]
  cases e <;> rfl

/-- A normally returning `try` block gives the callback its result. -/
theorem on_data_received_of_ok (raw : List Char) (r : HandlerResult)
    (hr : on_data_received_body raw = Except.ok r) :
    on_data_received raw = r := by
  unfold on_data_received
  rw [hr]

/-- C2: `classify(identity, roomName)` returns `Phone` exactly when at
least one of the five telephony predicates holds (identity starts with
`sip_`, identity starts with `sip:`, identity starts with `+`, room name
starts with `sip-`, room name contains `_+`), the predicates being
combined by logical or, and returns `WebRTC` for every other pair. -/
theorem c2_classify_phone_iff (identity roomName : List Char) :
    (classify identity roomName = CallType.Phone ↔
      ("sip_".toList <+: identity ∨ "sip:".toList <+: identity ∨
       "+".toList <+: identity ∨ "sip-".toList <+: roomName ∨
       "_+".toList <:+: roomName)) ∧
    (classify identity roomName = CallType.WebRTC ↔
      ¬("sip_".toList <+: identity ∨ "sip:".toList <+: identity ∨
        "+".toList <+: identity ∨ "sip-".toList <+: roomName ∨
        "_+".toList <:+: roomName)) := by
  have hb : is_phone_call identity roomName = true ↔
      ("sip_".toList <+: identity ∨ "sip:".toList <+: identity ∨
       "+".toList <+: identity ∨ "sip-".toList <+: roomName ∨
       "_+".toList <:+: roomName) := by
    simp [is_phone_call, containsSub_iff, or_assoc]
  constructor
  · rw [← hb]
    unfold classify
    cases hp : is_phone_call identity roomName <;> simp [hp]
  · rw [← hb]
    unfold classify
    cases hp : is_phone_call identity roomName <;> simp [hp]

/-- Witness for C2 at concrete inputs: a `sip_` identity is classified as
a phone call, and a plain identity in a plain room is classified as
WebRTC. -/
theorem c2_classify_phone_iff_witness :
    classify ("sip_+15550100".toList) ("room7".toList) = CallType.Phone ∧
    classify ("alice".toList) ("room7".toList) = CallType.WebRTC :=
  ⟨((c2_classify_phone_iff ("sip_+15550100".toList) ("room7".toList)).1).2
      (Or.inl (by decide)),
   ((c2_classify_phone_iff ("alice".toList) ("room7".toList)).2).2 (by decide)⟩

/-- C3: when both the persona and the business details fields are absent
or strip to the empty string, `build_system_prompt` returns the default
instruction text unchanged. -/
theorem c3_default_prompt (m : JsonVal)
    (h1 : getStrippedStr m cPERSONA = Except.ok [])
    (h2 : getStrippedStr m cBUSINESS = Except.ok []) :
    build_system_prompt m = Except.ok DEFAULT_SYSTEM_PROMPT := by
  unfold build_system_prompt
  rw [h1, h2]
  simp

/-- Witness for C3: building from the empty metadata dict yields exactly
the default instruction text. -/
theorem c3_default_prompt_witness :
    build_system_prompt (JsonVal.obj []) = Except.ok DEFAULT_SYSTEM_PROMPT :=
  c3_default_prompt (JsonVal.obj []) rfl rfl

/-- C10: calling `end_call` with `confirm` false, which is the default, is
a no-op that neither hangs up nor deletes the room, and the call can be
terminated through this tool only when `confirm` is true. -/
theorem c10_end_call_requires_confirm :
    end_call end_call_confirm_default = EndCallAction.ignored ∧
    end_call false = EndCallAction.ignored ∧
    (∀ r, end_call_room_exists false r = r) ∧
    end_call true = EndCallAction.hungUp ∧
    (∀ c, end_call c = EndCallAction.ignored ∨ c = true) := by
  decide

/-- C1: starting from the open latch, delivering any sequence of
termination signals that contains at least one effective signal (the
session `close` event, the disconnect of the session participant, or
both, in any order and with any duplication) runs the persistence handoff
exactly once and leaves the latch closed; every signal after the first
effective one is a no-op. -/
theorem c1_handoff_exactly_once (pid : List Char) (sigs : List Signal)
    (h : sigs.any (effectiveSignal pid) = true) :
    (run_signals pid initLifecycle sigs).handoffs = 1 ∧
    (run_signals pid initLifecycle sigs).notion_saved = true := by
  rw [run_signals_once pid sigs h]
  exact ⟨rfl, rfl⟩

/-- Witness for C1: both signals fire, disconnect first, plus a duplicate
close; the handoff still runs exactly once. -/
theorem c1_handoff_exactly_once_witness :
    (run_signals ("user1".toList) initLifecycle
      [Signal.participantDisconnected ("user1".toList), Signal.sessionClose,
       Signal.sessionClose]).handoffs = 1 ∧
    (run_signals ("user1".toList) initLifecycle
      [Signal.participantDisconnected ("user1".toList), Signal.sessionClose,
       Signal.sessionClose]).notion_saved = true :=
  c1_handoff_exactly_once ("user1".toList)
    [Signal.participantDisconnected ("user1".toList), Signal.sessionClose,
     Signal.sessionClose] (by decide)

/-- C9: a sink exception inside `save_to_notion` is caught there, so the
save function returns normally with the failure only logged; the latch
stays closed after the handoff that used the failing sink, and any later
termination signals are no-ops, so there is no retry and no second
handoff. -/
theorem c9_sink_failure_contained (e : PyExc) (st : LifecycleState)
    (pid : List Char) (sigs : List Signal) :
    save_to_notion true (Except.error e) = Except.ok SaveOutcome.failedLogged ∧
    (run_handoff true (Except.error e) st).1.notion_saved = true ∧
    run_signals pid (run_handoff true (Except.error e) st).1 sigs =
      (run_handoff true (Except.error e) st).1 := by
  have h2 : (run_handoff true (Except.error e) st).1.notion_saved = true := by
    cases hs : st.notion_saved <;> simp [run_handoff, hs]
  exact ⟨rfl, h2, run_signals_saved pid _ h2 sigs⟩

/-- C4: for metadata whose persona field strips to a non-empty string,
`build_system_prompt` succeeds, the stripped persona occurs in the
output (in fact as its first block), and the output ends with the fixed
email-capability addendum, which is appended unconditionally as the last
block. -/
theorem c4_persona_prompt (m : JsonVal) (p b : List Char)
    (h1 : getStrippedStr m cPERSONA = Except.ok p) (hp : p ≠ [])
    (h2 : getStrippedStr m cBUSINESS = Except.ok b) :
    ∃ out, build_system_prompt m = Except.ok out ∧
      p <+: out ∧ EMAIL_TOOL_ADDENDUM <:+ out := by
  have hcond : ¬(p = [] ∧ b = []) := fun hh => hp hh.1
  simp only [build_system_prompt, h1, h2]
  rw [if_neg hcond, if_pos hp]
  by_cases hb : b = []
  · rw [if_neg (by simp [hb])]
    refine ⟨_, rfl, ?_, ?_⟩
    · simp
    · exact ⟨p ++ VOICE_GUIDANCE, by simp⟩
  · rw [if_pos hb]
    refine ⟨_, rfl, ?_, ?_⟩
    · simp
    · exact ⟨p ++ ((CONTEXT_HEADER ++ b) ++ VOICE_GUIDANCE), by simp⟩

/-- Witness for C4: a one-line persona is kept at the front of the built
prompt and the email addendum closes it. -/
theorem c4_persona_prompt_witness :
    ∃ out, build_system_prompt
        (JsonVal.obj [(("persona").toList, JsonVal.str ("You are Riya.").toList)]) =
      Except.ok out ∧
      ("You are Riya.").toList <+: out ∧ EMAIL_TOOL_ADDENDUM <:+ out :=
  c4_persona_prompt
    (JsonVal.obj [(("persona").toList, JsonVal.str ("You are Riya.").toList)])
    (("You are Riya.").toList) [] rfl (by decide) rfl

/-- Counterexample for C5: the metadata strings `null` and `NaN` are both
accepted by the decoder (`json.loads` takes the latter as a float by
default) but are malformed metadata; decoding returns the decoded value
rather than an empty configuration, and the `get` call the entrypoint
immediately performs on it raises an `AttributeError`, a fault reaching
the session. -/
theorem c5_cex :
    parse_participant_metadata ("null".toList) = JsonVal.null ∧
    parse_participant_metadata ("null".toList) ≠ JsonVal.obj [] ∧
    dict_get (parse_participant_metadata ("null".toList)) ("userName".toList)
        (JsonVal.str []) = Except.error PyExc.attributeError ∧
    parse_participant_metadata ("NaN".toList) = JsonVal.num ("NaN".toList) ∧
    dict_get (parse_participant_metadata ("NaN".toList)) ("userName".toList)
        (JsonVal.str []) = Except.error PyExc.attributeError := by
  have h0 : parse_participant_metadata ("null".toList) = JsonVal.null := rfl
  refine ⟨h0, ?_, rfl, rfl, rfl⟩
  rw [h0]
  exact fun h => JsonVal.noConfusion h

/-- C5 as amended: decoding is total and never raises; an absent (empty)
metadata string and any string that is not parseable JSON decode to the
empty configuration; a parseable JSON document is returned as decoded,
which for a non-object document is not the empty configuration and lets
the subsequent field lookup fault. -/
theorem c5_decode_amended (s : List Char) :
    (s = [] → parse_participant_metadata s = JsonVal.obj []) ∧
    (json_loads s = none → parse_participant_metadata s = JsonVal.obj []) ∧
    (∀ j, json_loads s = some j → s ≠ [] → parse_participant_metadata s = j) := by
  refine ⟨?_, ?_, ?_⟩
  · intro h
    simp [parse_participant_metadata, h]
  · intro h
    by_cases hs : s = []
    · simp [parse_participant_metadata, hs]
    · simp [parse_participant_metadata, hs, h]
  · intro j hj hs
    simp [parse_participant_metadata, hs, hj]

/-- Witness for C5 as amended: a non-JSON metadata string decodes to the
empty configuration without fault. -/
theorem c5_decode_amended_witness :
    parse_participant_metadata ("oops".toList) = JsonVal.obj [] :=
  (c5_decode_amended ("oops".toList)).2.1 rfl

/-- Counterexample for C6: with no request outstanding (the idle state,
empty pending slot), an `email_response` carrying a non-empty email is
not a no-op: the handler spawns the delivery task and the pending slot
changes, because `on_data_received` keeps no handshake state at all. -/
theorem c6_cex :
    on_data_received
        (("\x7b\"type\": \"email_response\", \"email\": \"a@b.com\"\x7d").toList) =
      HandlerResult.spawn (("a@b.com").toList) ∧
    process_data { received_email := none }
        (("\x7b\"type\": \"email_response\", \"email\": \"a@b.com\"\x7d").toList) ≠
      { received_email := none } := by
  decide

/-- C6 as amended: an `email_response` received while no request is
outstanding is accepted without error, but it is not a no-op: since the
handler tracks no handshake state, a non-empty email is delivered exactly
as if a request were outstanding, whatever the prior session state. -/
theorem c6_idle_email_delivered (st : DataSessionState) (raw : List Char)
    (m ej : JsonVal) (e : List Char)
    (h1 : json_loads raw = some m)
    (h2 : dict_get_opt m cTYPE = Except.ok (some (JsonVal.str cEMAIL_RESPONSE)))
    (h3 : dict_get m cEMAIL (JsonVal.str []) = Except.ok ej)
    (h4 : pyStrStrip ej = Except.ok e) (h5 : e ≠ []) :
    on_data_received raw = HandlerResult.spawn e ∧
    process_data st raw = { st with received_email := some e } := by
  have hb : on_data_received_body raw = Except.ok (HandlerResult.spawn e) := by
    simp only [on_data_received_body, h1, h2, h3, h4, isEmailResponseType]
    simp [h5]
  have hr : on_data_received raw = HandlerResult.spawn e :=
    on_data_received_of_ok raw _ hb
  refine ⟨hr, ?_⟩
  simp only [process_data, hr, handle_email_response]

/-- Witness for amended C6 at the idle state and a concrete payload. -/
theorem c6_idle_email_delivered_witness :
    on_data_received
        (("\x7b\"type\": \"email_response\", \"email\": \"c@d.org\"\x7d").toList) =
      HandlerResult.spawn (("c@d.org").toList) ∧
    process_data { received_email := none }
        (("\x7b\"type\": \"email_response\", \"email\": \"c@d.org\"\x7d").toList) =
      { received_email := some (("c@d.org").toList) } :=
  c6_idle_email_delivered { received_email := none }
    (("\x7b\"type\": \"email_response\", \"email\": \"c@d.org\"\x7d").toList)
    (JsonVal.obj [(("type").toList, JsonVal.str (("email_response").toList)),
                  (("email").toList, JsonVal.str (("c@d.org").toList))])
    (JsonVal.str (("c@d.org").toList)) (("c@d.org").toList)
    rfl rfl rfl rfl (by decide)

/-- C7: an `email_response` whose email field strips to the empty string
is a no-op: no delivery task is spawned, the pending slot and the rest of
the session state are unchanged, and nothing is raised. -/
theorem c7_empty_email_noop (st : DataSessionState) (raw : List Char)
    (m ej : JsonVal)
    (h1 : json_loads raw = some m)
    (h2 : dict_get_opt m cTYPE = Except.ok (some (JsonVal.str cEMAIL_RESPONSE)))
    (h3 : dict_get m cEMAIL (JsonVal.str []) = Except.ok ej)
    (h4 : pyStrStrip ej = Except.ok []) :
    on_data_received raw = HandlerResult.noop ∧ process_data st raw = st := by
  have hb : on_data_received_body raw = Except.ok HandlerResult.noop := by
    simp only [on_data_received_body, h1, h2, h3, h4, isEmailResponseType]
    simp
  have hr : on_data_received raw = HandlerResult.noop :=
    on_data_received_of_ok raw _ hb
  refine ⟨hr, ?_⟩
  simp only [process_data, hr]

/-- Witness for C7: a whitespace-only email is dropped and the state is
untouched. -/
theorem c7_empty_email_noop_witness :
    on_data_received
        (("\x7b\"type\": \"email_response\", \"email\": \"  \"\x7d").toList) =
      HandlerResult.noop ∧
    process_data { received_email := none }
        (("\x7b\"type\": \"email_response\", \"email\": \"  \"\x7d").toList) =
      { received_email := none } :=
  c7_empty_email_noop { received_email := none }
    (("\x7b\"type\": \"email_response\", \"email\": \"  \"\x7d").toList)
    (JsonVal.obj [(("type").toList, JsonVal.str (("email_response").toList)),
                  (("email").toList, JsonVal.str (("  ").toList))])
    (JsonVal.str (("  ").toList))
    rfl rfl rfl rfl

/-- C8: every payload that does not decode to a dict tagged
`email_response` — non-JSON bytes, JSON that is not an object, an object
without a `type` field, or an unrecognized `type` — is dropped with the
handler returning normally, and any exception raised inside the `try`
block is caught so nothing propagates to the session. -/
theorem c8_malformed_dropped (raw : List Char)
    (h : emailResponseTagged raw = false) :
    on_data_received raw = HandlerResult.noop ∧
    (∀ e, on_data_received_body raw = Except.error e →
      on_data_received raw = HandlerResult.noop) := by
  refine ⟨?_, fun e he => on_data_received_of_error raw e he⟩
  cases hj : json_loads raw with
  | none =>
    exact on_data_received_of_error raw PyExc.jsonDecodeError
      (by simp [on_data_received_body, hj])
  | some m =>
    cases hd : dict_get_opt m cTYPE with
    | error e2 =>
      exact on_data_received_of_error raw e2
        (by simp [on_data_received_body, hj, hd])
    | ok mt =>
      have hm : isEmailResponseType mt = false := by
        simp only [emailResponseTagged, hj, hd] at h
        exact h
      exact on_data_received_of_ok raw _
        (by simp [on_data_received_body, hj, hd, hm])

/-- Witness for C8: a payload with an unrecognized type is dropped. -/
theorem c8_malformed_dropped_witness :
    on_data_received (("\x7b\"type\": \"tool_use\"\x7d").toList) =
      HandlerResult.noop :=
  (c8_malformed_dropped (("\x7b\"type\": \"tool_use\"\x7d").toList) (by decide)).1
